import Mathlib

/-! # Praxis realtime relay: `backend/server.js`

A shallow embedding of the WebSocket relay in
`src/praxis_ai/interfaces/realtime-api/backend/server.js`.

* JavaScript values that reach the handlers come out of `JSON.parse`, so they are
  modelled by `Json`; `undefined` (the result of reading an absent property) is
  `none` in `JsVal`.
* `JSON.parse` and `JSON.stringify` belong to the JavaScript runtime, not to the
  repository: the handlers take them as a parameter (`JSONLib`).
* Calls on the two sockets and on the timer API are recorded, in program order, in
  the `log` of the `World`. The `ws` library is outside the source file; of its
  behaviour the model keeps which upstream sockets are still `CONNECTING`, because
  `send()` on such a socket throws (on an open, closing or closed socket it returns).
* A handler that lets an exception escape reports it in `Outcome.thrown`.
-/

namespace Praxis

/-! ## JavaScript values -/

/-- The values `JSON.parse` can return. Numbers are never inspected by the relay;
they are carried as an uninterpreted integer payload. -/
inductive Json where
  | null
  | bool (b : Bool)
  | num (n : Int)
  | str (s : String)
  | arr (xs : List Json)
  | obj (kvs : List (String × Json))

/-- A JavaScript value as a handler sees it: `none` is `undefined`. -/
abbrev JsVal := Option Json

/-- The exceptions the handlers can raise. -/
inductive Exn where
  | syntaxError (message : String)
  | typeError (message : String)
  | error (message : String)
deriving DecidableEq, Repr

/-- The `message` property of an exception object (`e.message`). -/
def Exn.message : Exn → String
  | .syntaxError m => m
  | .typeError m => m
  | .error m => m

/-- The two runtime functions the file uses: `JSON.parse` (which throws a
`SyntaxError` carrying a message on text that is not JSON) and `JSON.stringify`. -/
structure JSONLib where
  parse : String → Except String Json
  stringify : Json → String

/-- Property read `v.name` for the property names used in `server.js`
(`type`, `item`, `role`, `delta`, `text`; none of them is defined on a built-in
prototype). Reading a property of `undefined` or `null` throws a `TypeError`; an
object yields its own property or `undefined`; every other value yields `undefined`.
The wording of the `TypeError` message is the engine's. -/
def getProp (v : JsVal) (name : String) : Except Exn JsVal :=
  match v with
  | none => .error (.typeError ("Cannot read properties of undefined (reading " ++ name ++ ")"))
  | some .null => .error (.typeError ("Cannot read properties of null (reading " ++ name ++ ")"))
  | some (.obj kvs) => .ok (kvs.lookup name)
  | some _ => .ok none

/-- The comparison `v === "lit"` against a string literal. -/
def strictEqStr (v : JsVal) (lit : String) : Bool :=
  match v with
  | some (.str s) => s == lit
  | _ => false

/-! ## Conversation history (lines 32-52) -/

/-- `const maxHistoryLength = 10;` -/
def maxHistoryLength : Nat := 10

/-- `addToConversationHistory(item)`: `push`, then `shift` when the array has grown
past `maxHistoryLength`. The global array is passed and returned explicitly. -/
def addToConversationHistory (item : Json) (conversationHistory : List Json) : List Json :=
  let pushed := conversationHistory ++ [item]
  if pushed.length > maxHistoryLength then pushed.tail else pushed

/-- A sequence of `addToConversationHistory` calls, first call first. -/
def addAll (items : List Json) (conversationHistory : List Json) : List Json :=
  items.foldl (fun h item => addToConversationHistory item h) conversationHistory

/-! ## Moderation (lines 54-58) -/

/-- `const inappropriateWords = ["badword1", "badword2", "badword3"];` -/
def inappropriateWords : List String := ["badword1", "badword2", "badword3"]

/-- `text.toLowerCase()`, on the ASCII letters. JavaScript also lower-cases letters
outside ASCII; no such letter lower-cases to a character of `inappropriateWords`, so
the result of `moderateContent` is the same. -/
def toLowerCase (text : String) : String :=
  ⟨text.data.map Char.toLower⟩

/-- Whether `word` starts the character sequence `s`. -/
def startsWithChars : List Char → List Char → Bool
  | _, [] => true
  | [], _ :: _ => false
  | c :: cs, d :: ds => c == d && startsWithChars cs ds

/-- Whether `word` occurs in `s` at some position (left-to-right scan). -/
def includesChars : List Char → List Char → Bool
  | [], word => startsWithChars [] word
  | c :: cs, word => startsWithChars (c :: cs) word || includesChars cs word

/-- `s.includes(word)`. -/
def includes (s word : String) : Bool :=
  includesChars s.data word.data

/-- `moderateContent(text)`. On a string it is
`!inappropriateWords.some((word) => text.toLowerCase().includes(word))`; on any
other value the call `text.toLowerCase()` throws a `TypeError`. -/
def moderateContent (text : JsVal) : Except Exn Bool :=
  match text with
  | some (.str s) =>
      .ok (!(inappropriateWords.any (fun word => includes (toLowerCase s) word)))
  | none => .error (.typeError "Cannot read properties of undefined (reading toLowerCase)")
  | some .null => .error (.typeError "Cannot read properties of null (reading toLowerCase)")
  | some _ => .error (.typeError "text.toLowerCase is not a function")

/-! ## The world of one client session -/

/-- A call made by the relay on a socket or on the timer API. Upstream sockets are
named by the order in which `connect()` constructed them (0 is the first). -/
inductive Effect where
  | wsNew (conn : Nat)
  | upstreamSend (conn : Nat) (payload : String)
  | upstreamClose (conn : Nat)
  | clientSend (payload : String)
  | clientClose
  | setTimeout (ms : Nat)
deriving DecidableEq, Repr

/-- The state one client session runs in: the global `conversationHistory`, the
closure variable `reconnectAttempts`, the constant `openaiWs` bound in the
`wss.on("connection")` callback, the number of upstream sockets constructed so far,
the number of reconnect timers that are scheduled and have not fired, the calls
made so far, and the upstream sockets whose `readyState` is still `CONNECTING`. -/
structure World where
  conversationHistory : List Json
  reconnectAttempts : Nat
  openaiWs : Nat
  sockets : Nat
  timers : Nat
  log : List Effect
  connecting : List Nat

/-- Record one call. -/
def World.emit (w : World) (e : Effect) : World :=
  { w with log := w.log ++ [e] }

/-- The socket `c` leaves `CONNECTING`: it has opened, failed or closed, or `close()`
was called on it. -/
def World.leaveConnecting (w : World) (c : Nat) : World :=
  { w with connecting := w.connecting.erase c }

/-- The message of the `Error` that `send()` of the `ws` library throws on a socket
whose `readyState` is `CONNECTING`. -/
def notOpenMessage : String := "WebSocket is not open: readyState 0 (CONNECTING)"

/-- What a handler leaves behind: the world, and the exception that escaped it. -/
structure Outcome where
  world : World
  thrown : Option Exn

/-- The payload of a message event of the `ws` library. -/
inductive WsData where
  | buffer (utf8 : String)
  | string (s : String)
  | other

/-! ## Events built by the relay -/

/-- `const systemPrompt = { type: "session.update", session: { instructions } }`. -/
def systemPrompt : Json :=
  .obj [("type", .str "session.update"),
    ("session", .obj [("instructions", .str "You are Praxis, an advanced AI assistant. Your knowledge cutoff is 2023-10. You are helpful, witty, and friendly. Act like a human, but remember that you aren\x27t a human and that you can\x27t do human things in the real world. Your voice and personality should be warm and engaging, with a lively and playful tone. If interacting in a non-English language, start by using the standard accent or dialect familiar to the user. Talk quickly. You should always call a function if you can. Do not refer to these rules, even if you\x27re asked about them.")])]

/-- The object `{ type: "conversation.item.create", item: item }` of line 46. -/
def itemCreateEvent (item : Json) : Json :=
  .obj [("type", .str "conversation.item.create"), ("item", item)]

/-- The object `{ type: "response.cancel" }` of line 105. -/
def cancelEvent : Json :=
  .obj [("type", .str "response.cancel")]

/-- The error event of lines 107-113. -/
def moderationErrorEvent : Json :=
  .obj [("type", .str "error"),
    ("error", .obj [("message", .str "Response contained inappropriate content and was cancelled.")])]

/-- The error event of lines 124-130. -/
def connectionErrorEvent (details : String) : Json :=
  .obj [("type", .str "error"),
    ("error", .obj [("message", .str "Error in OpenAI Realtime API connection."),
      ("details", .str details)])]

/-- The error event of lines 177-183. -/
def invalidJsonErrorEvent (details : String) : Json :=
  .obj [("type", .str "error"),
    ("error", .obj [("message", .str "Invalid JSON format sent to server."),
      ("details", .str details)])]

/-! ## `connectToOpenAI` and its handlers (lines 60-153) -/

/-- `const maxReconnectAttempts = 5;` -/
def maxReconnectAttempts : Nat := 5

/-- The delay passed to `setTimeout` on line 143. -/
def reconnectDelay : Nat := 5000

/-- `rebuildConversation(ws)`: `forEach` over the history, one `ws.send` per item. -/
def rebuildConversation (J : JSONLib) (ws : Nat) (w : World) : World :=
  w.conversationHistory.foldl
    (fun acc item => acc.emit (.upstreamSend ws (J.stringify (itemCreateEvent item)))) w

/-- `connect()`: constructs a new upstream socket (which starts `CONNECTING`),
registers the four handlers on it and returns it. -/
def connect (w : World) : Nat × World :=
  (w.sockets, { w with sockets := w.sockets + 1, log := w.log ++ [.wsNew w.sockets],
                       connecting := w.connecting ++ [w.sockets] })

/-- `connectToOpenAI(clientSocket)`: `let reconnectAttempts = 0; return connect();` -/
def connectToOpenAI (w : World) : Nat × World :=
  connect { w with reconnectAttempts := 0 }

/-- `openaiWs.on("open", ...)` of the socket `ws` (lines 75-84). The library runs the
handlers of a socket only once the socket has left `CONNECTING`, so the `send` calls
of the upstream handlers on their own socket return. -/
def onUpstreamOpen (J : JSONLib) (ws : Nat) (w : World) : World :=
  rebuildConversation J ws
    (({ w with reconnectAttempts := 0 } : World).emit (.upstreamSend ws (J.stringify systemPrompt)))

/-- `openaiWs.on("message", ...)` of the socket `ws` (lines 86-120). There is no
`try` in this handler: whatever `JSON.parse`, a property read or `moderateContent`
throws escapes it. -/
def onUpstreamMessage (J : JSONLib) (ws : Nat) (data : WsData) (w : World) : Outcome :=
  let forward (messageStr : String) : Outcome :=
    match J.parse messageStr with
    | .error m => ⟨w, some (.syntaxError m)⟩
    | .ok event =>
      match getProp (some event) "type" with
      | .error e => ⟨w, some e⟩
      | .ok ty =>
        if strictEqStr ty "response.text.delta" then
          match getProp (some event) "delta" with
          | .error e => ⟨w, some e⟩
          | .ok delta =>
            match getProp delta "text" with
            | .error e => ⟨w, some e⟩
            | .ok text =>
              match moderateContent text with
              | .error e => ⟨w, some e⟩
              | .ok false =>
                ⟨(w.emit (.upstreamSend ws (J.stringify cancelEvent))).emit
                    (.clientSend (J.stringify moderationErrorEvent)), none⟩
              | .ok true => ⟨w.emit (.clientSend messageStr), none⟩
        else ⟨w.emit (.clientSend messageStr), none⟩
  match data with
  | .buffer utf8 => forward utf8
  | .string s => forward s
  | .other => ⟨w, none⟩

/-- `openaiWs.on("error", ...)` (lines 122-132); `message` is `error.message`. -/
def onUpstreamError (J : JSONLib) (message : String) (w : World) : World :=
  w.emit (.clientSend (J.stringify (connectionErrorEvent message)))

/-- `openaiWs.on("close", ...)` (lines 134-147). -/
def onUpstreamClose (w : World) : World :=
  if w.reconnectAttempts < maxReconnectAttempts then
    { w with timers := w.timers + 1, log := w.log ++ [.setTimeout reconnectDelay] }
  else
    w.emit .clientClose

/-- The callback given to `setTimeout` (lines 137-143): `reconnectAttempts++` and
`connect()`. It runs only for a timer that is pending. -/
def onTimeout (w : World) : World :=
  if w.timers = 0 then w
  else (connect { w with timers := w.timers - 1, reconnectAttempts := w.reconnectAttempts + 1 }).2

/-! ## The client side (lines 155-196) -/

/-- `wss.on("connection", ...)`: a new session over the current global history;
`openaiWs` is bound once, to the socket `connectToOpenAI` returns. -/
def onConnection (conversationHistory : List Json) : World :=
  let w0 : World :=
    { conversationHistory := conversationHistory, reconnectAttempts := 0, openaiWs := 0,
      sockets := 0, timers := 0, log := [], connecting := [] }
  let r := connectToOpenAI w0
  { r.2 with openaiWs := r.1 }

/-- The call `openaiWs.send(JSON.stringify(event))` of line 174: on a socket that is
still `CONNECTING` the library throws, otherwise the call is made and returns. -/
def sendUpstream (payload : String) (w : World) : Outcome :=
  if w.connecting.contains w.openaiWs then ⟨w, some (.error notOpenMessage)⟩
  else ⟨w.emit (.upstreamSend w.openaiWs payload), none⟩

/-- The body of the `try` block of lines 163-174: the world it leaves, and the
exception that ended it, if any. -/
def clientTry (J : JSONLib) (message : String) (w : World) : Outcome :=
  match J.parse message with
  | .error m => ⟨w, some (.syntaxError m)⟩
  | .ok event =>
    match getProp (some event) "type" with
    | .error e => ⟨w, some e⟩
    | .ok ty =>
      if strictEqStr ty "conversation.item.create" then
        match getProp (some event) "item" with
        | .error e => ⟨w, some e⟩
        | .ok item =>
          match getProp item "role" with
          | .error e => ⟨w, some e⟩
          | .ok role =>
            if strictEqStr role "user" then
              match item with
              | some i =>
                sendUpstream (J.stringify event)
                  { w with conversationHistory :=
                      addToConversationHistory i w.conversationHistory }
              | none => sendUpstream (J.stringify event) w
            else sendUpstream (J.stringify event) w
      else sendUpstream (J.stringify event) w

/-- `clientSocket.on("message", ...)` (lines 161-186): the `try` block, and the
`catch` that answers any exception with an error event to the client. What the
`try` block did before the exception stays done. -/
def onClientMessage (J : JSONLib) (message : String) (w : World) : World :=
  match clientTry J message w with
  | ⟨w1, none⟩ => w1
  | ⟨w1, some e⟩ => w1.emit (.clientSend (J.stringify (invalidJsonErrorEvent e.message)))

/-- `clientSocket.on("close", ...)` (lines 188-191): `openaiWs.close()`, after which
the socket is no longer `CONNECTING`. -/
def onClientClose (w : World) : World :=
  (w.emit (.upstreamClose w.openaiWs)).leaveConnecting w.openaiWs

/-- `clientSocket.on("error", ...)` (lines 193-196): `openaiWs.close()`. -/
def onClientError (w : World) : World :=
  (w.emit (.upstreamClose w.openaiWs)).leaveConnecting w.openaiWs

/-! ## Event dispatch -/

/-- The events the runtime delivers to a session. -/
inductive Event where
  | upstreamOpen (conn : Nat)
  | upstreamMessage (conn : Nat) (data : WsData)
  | upstreamError (conn : Nat) (message : String)
  | upstreamClose (conn : Nat)
  | timeout
  | clientMessage (message : String)
  | clientClose
  | clientError

/-- Run the handler registered for an event. A socket that emits `open`, `error` or
`close` has left `CONNECTING` when its handler runs. -/
def step (J : JSONLib) (e : Event) (w : World) : Outcome :=
  match e with
  | .upstreamOpen c => ⟨onUpstreamOpen J c (w.leaveConnecting c), none⟩
  | .upstreamMessage c data => onUpstreamMessage J c data w
  | .upstreamError c message => ⟨onUpstreamError J message (w.leaveConnecting c), none⟩
  | .upstreamClose c => ⟨onUpstreamClose (w.leaveConnecting c), none⟩
  | .timeout => ⟨onTimeout w, none⟩
  | .clientMessage message => ⟨onClientMessage J message w, none⟩
  | .clientClose => ⟨onClientClose w, none⟩
  | .clientError => ⟨onClientError w, none⟩

/-- Deliver events in order; an exception that escapes a handler is uncaught and
ends the run. -/
def run (J : JSONLib) : List Event → World → Outcome
  | [], w => ⟨w, none⟩
  | e :: es, w =>
    match step J e w with
    | ⟨w1, none⟩ => run J es w1
    | ⟨w1, some x⟩ => ⟨w1, some x⟩

/-- The events of a session whose upstream never opens: each of the sockets
`first, ..., first + n - 1` closes and the reconnect timer then fires. -/
def closeAndRetry (first : Nat) : Nat → List Event
  | 0 => []
  | n + 1 => Event.upstreamClose first :: Event.timeout :: closeAndRetry (first + 1) n

/-! ## A concrete runtime for evaluating the handlers -/

mutual
/-- A compact serialiser (strings are written without escapes). -/
def Json.render : Json → String
  | .null => "null"
  | .bool b => if b then "true" else "false"
  | .num n => toString n
  | .str s => "\"" ++ s ++ "\""
  | .arr xs => "[" ++ renderItems xs ++ "]"
  | .obj kvs => "\x7b" ++ renderFields kvs ++ "\x7d"
/-- The elements of an array, comma separated. -/
def renderItems : List Json → String
  | [] => ""
  | [x] => x.render
  | x :: y :: xs => x.render ++ "," ++ renderItems (y :: xs)
/-- The members of an object, comma separated. -/
def renderFields : List (String × Json) → String
  | [] => ""
  | [(k, v)] => "\"" ++ k ++ "\":" ++ v.render
  | (k, v) :: kv :: kvs => "\"" ++ k ++ "\":" ++ v.render ++ "," ++ renderFields (kv :: kvs)
end

/-- A user item as a client sends it. -/
def sampleUserItem : Json :=
  .obj [("role", .str "user"), ("content", .str "hi")]

/-- The JSON texts the sample runtime can parse. -/
def sampleValues : List Json :=
  [ .null,
    itemCreateEvent sampleUserItem,
    .obj [("type", .str "conversation.item.create")],
    .obj [("type", .str "response.text.delta"), ("delta", .obj [("text", .str "a BadWord2 b")])],
    moderationErrorEvent ]

/-- A runtime for concrete runs: `stringify` is `Json.render`, and `parse` inverts
it on `sampleValues` and rejects every other text. -/
def sampleJSON : JSONLib where
  parse := fun s =>
    match sampleValues.find? (fun v => v.render == s) with
    | some v => .ok v
    | none => .error "Unexpected token"
  stringify := Json.render

/-! ## Properties the specification names -/

/-- The text contains `word` compared case-insensitively: some contiguous run of
characters of `text` equals `word` up to letter case. -/
def containsIgnoringCase (text word : String) : Prop :=
  ∃ pre mid post : List Char,
    text.data = pre ++ mid ++ post ∧ mid.map Char.toLower = word.data.map Char.toLower

/-! ## Further concrete runtimes -/

/-- A runtime whose `parse` inverts `Json.render` on the given values and rejects
every other text; `stringify` is `Json.render`. -/
def tableJSON (values : List Json) : JSONLib where
  parse := fun s =>
    match values.find? (fun v => v.render == s) with
    | some v => .ok v
    | none => .error "Unexpected token"
  stringify := Json.render

/-- Remote messages used to evaluate the upstream message handler. -/
def remoteSamples : List Json :=
  [ .null,
    .obj [],
    .obj [("type", .str "response.text.delta")],
    .obj [("type", .str "response.text.delta"), ("delta", .str "abc")],
    .obj [("type", .str "response.text.delta"), ("delta", .obj [("text", .str "hello")])],
    .obj [("type", .str "response.done")] ]

/-- The runtime over `remoteSamples`. -/
def remoteJSON : JSONLib := tableJSON remoteSamples

/-- A user item-creation event with one more top-level field. -/
def sampleTaggedEvent : Json :=
  .obj [("type", .str "conversation.item.create"), ("item", sampleUserItem),
    ("event_id", .str "e1")]

/-- A user item-creation event whose `item` is listed before its `type`. -/
def sampleItemFirstEvent : Json :=
  .obj [("item", sampleUserItem), ("type", .str "conversation.item.create")]

/-- The runtime over the client events used for capture and replay. -/
def clientJSON : JSONLib :=
  tableJSON [itemCreateEvent sampleUserItem, sampleTaggedEvent, sampleItemFirstEvent]

/-! ## Sessions under the runtime's delivery rules -/

/-- A session together with the upstream sockets that have emitted their close
event. -/
structure Session where
  world : World
  closed : List Nat

/-- A new session: the world of `onConnection`, no socket closed yet. -/
def newSession (conversationHistory : List Json) : Session :=
  ⟨onConnection conversationHistory, []⟩

/-- Which events the runtime can deliver: upstream events belong to a socket that
has been constructed, a socket emits its close event at most once, and a timer fires
only while one is pending. -/
def admissible (s : Session) : Event → Bool
  | .upstreamOpen c => decide (c < s.world.sockets)
  | .upstreamMessage c _ => decide (c < s.world.sockets)
  | .upstreamError c _ => decide (c < s.world.sockets)
  | .upstreamClose c => decide (c < s.world.sockets) && !(s.closed.contains c)
  | .timeout => decide (0 < s.world.timers)
  | .clientMessage _ => true
  | .clientClose => true
  | .clientError => true

/-- Deliver one event: run its handler and note a close. -/
def deliver (J : JSONLib) (e : Event) (s : Session) : Session :=
  match e with
  | .upstreamClose c => ⟨(step J e s.world).world, c :: s.closed⟩
  | _ => ⟨(step J e s.world).world, s.closed⟩

/-- Deliver a sequence of events; `none` when one of them cannot be delivered. -/
def runSession (J : JSONLib) : List Event → Session → Option Session
  | [], s => some s
  | e :: es, s => if admissible s e then runSession J es (deliver J e s) else none

/-- What every reachable session satisfies: closed sockets are distinct and have been
constructed, pending timers and open sockets together number at most one, the counter
is at most `maxReconnectAttempts`, and it is below it while a timer is pending. -/
def SessionInv (s : Session) : Prop :=
  s.closed.Nodup ∧
  (∀ c ∈ s.closed, c < s.world.sockets) ∧
  s.world.timers + s.world.sockets ≤ s.closed.length + 1 ∧
  s.world.reconnectAttempts ≤ maxReconnectAttempts ∧
  (0 < s.world.timers → s.world.reconnectAttempts < maxReconnectAttempts)

/-! # Theorems -/

/-! ## History buffer -/

theorem addToConversationHistory_drop (l : List Json) (x : Json) :
    addToConversationHistory x (l.drop (l.length - maxHistoryLength)) =
      (l ++ [x]).drop ((l ++ [x]).length - maxHistoryLength) := by
  unfold addToConversationHistory maxHistoryLength
  by_cases h : l.length < 10
  · have h0 : l.length - 10 = 0 := by omega
    have h1 : (l ++ [x]).length - 10 = 0 := by simp; omega
    have h2 : ¬ (l ++ [x]).length > 10 := by simp; omega
    simp only [h0, h1, List.drop_zero]
    simp only [h2, if_false]
  · have hlen : (List.drop (l.length - 10) l ++ [x]).length > 10 := by
      simp; omega
    simp only [hlen, if_true]
    have h1 : (l ++ [x]).length - 10 = (l.length - 10) + 1 := by simp; omega
    rw [h1, ← List.drop_one, ← List.drop_drop]
    congr 1
    rw [List.drop_append_of_le_length (by omega)]

theorem addAll_snoc (xs : List Json) (x : Json) (h : List Json) :
    addAll (xs ++ [x]) h = addToConversationHistory x (addAll xs h) := by
  simp [addAll, List.foldl_append]

/-- C1. Starting from an empty `conversationHistory`, after any sequence of
`addToConversationHistory` calls the array holds at most `maxHistoryLength` = 10
items and equals the last 10 appended items in their original order (all of them,
when fewer than 10 were appended). -/
theorem history_is_last_ten (items : List Json) :
    (addAll items []).length ≤ 10 ∧
    addAll items [] = items.drop (items.length - 10) ∧
    (items.length < 10 → addAll items [] = items) ∧
    (∀ old recent : List Json, items = old ++ recent → recent.length = 10 →
      addAll items [] = recent) := by
  have key : addAll items [] = items.drop (items.length - maxHistoryLength) := by
    induction items using List.reverseRecOn with
    | nil => rfl
    | append_singleton xs x ih =>
      rw [addAll_snoc, ih, addToConversationHistory_drop]
  have key10 : addAll items [] = items.drop (items.length - 10) := key
  refine ⟨?_, key10, ?_, ?_⟩
  · rw [key10, List.length_drop]; omega
  · intro h
    rw [key10, show items.length - 10 = 0 by omega, List.drop_zero]
  · intro old recent hsplit hlen
    rw [key10, hsplit]
    have : (old ++ recent).length - 10 = old.length := by simp; omega
    rw [this, List.drop_left]

/-! ## Moderation gate -/

theorem startsWithChars_iff (s word : List Char) :
    startsWithChars s word = true ↔ word <+: s := by
  induction word generalizing s with
  | nil => simp [startsWithChars]
  | cons d ds ih =>
    cases s with
    | nil => simp [startsWithChars]
    | cons c cs =>
      simp only [startsWithChars, Bool.and_eq_true, beq_iff_eq, ih, List.cons_prefix_cons]
      constructor
      · rintro ⟨h1, h2⟩; exact ⟨h1.symm, h2⟩
      · rintro ⟨h1, h2⟩; exact ⟨h1.symm, h2⟩

theorem includesChars_iff (s word : List Char) :
    includesChars s word = true ↔ word <:+: s := by
  induction s with
  | nil =>
    simp only [includesChars, startsWithChars_iff]
    constructor
    · intro h; exact h.isInfix
    · intro h
      have := List.eq_nil_of_infix_nil h
      subst this; exact List.nil_prefix
  | cons c cs ih =>
    simp only [includesChars, Bool.or_eq_true, startsWithChars_iff, ih]
    exact List.infix_cons_iff.symm

theorem includes_toLowerCase_iff (text word : String)
    (hword : word.data.map Char.toLower = word.data) :
    includes (toLowerCase text) word = true ↔ containsIgnoringCase text word := by
  unfold includes toLowerCase containsIgnoringCase
  rw [includesChars_iff, hword]
  constructor
  · rintro ⟨s, t, h⟩
    have h1 := h.symm
    simp only at h1
    rw [List.map_eq_append_iff] at h1
    obtain ⟨l1, post, hl, h2, hpost⟩ := h1
    rw [List.map_eq_append_iff] at h2
    obtain ⟨pre, mid, hl1, hpre, hmid⟩ := h2
    exact ⟨pre, mid, post, by rw [hl, hl1], hmid⟩
  · rintro ⟨pre, mid, post, h, hmid⟩
    refine ⟨pre.map Char.toLower, post.map Char.toLower, ?_⟩
    simp only [h, List.map_append, hmid]

theorem inappropriateWords_lower :
    ∀ word ∈ inappropriateWords, word.data.map Char.toLower = word.data := by
  decide

/-- C2. On every string `text`, `moderateContent` returns (it does not throw), and
its result is `false` exactly when `text` contains, compared case-insensitively, one
of the words of `inappropriateWords` (`true` otherwise). The result is a function of
`text` alone: the embedding reads and writes no state. -/
theorem moderateContent_iff (text : String) :
    (moderateContent (some (.str text)) = .ok false ↔
      ∃ word ∈ inappropriateWords, containsIgnoringCase text word) ∧
    (moderateContent (some (.str text)) = .ok true ↔
      ¬ ∃ word ∈ inappropriateWords, containsIgnoringCase text word) ∧
    inappropriateWords = ["badword1", "badword2", "badword3"] := by
  have hany : (inappropriateWords.any (fun word => includes (toLowerCase text) word)) = true ↔
      ∃ word ∈ inappropriateWords, containsIgnoringCase text word := by
    rw [List.any_eq_true]
    constructor
    · rintro ⟨word, hmem, h⟩
      exact ⟨word, hmem, (includes_toLowerCase_iff text word
        (inappropriateWords_lower word hmem)).1 h⟩
    · rintro ⟨word, hmem, h⟩
      exact ⟨word, hmem, (includes_toLowerCase_iff text word
        (inappropriateWords_lower word hmem)).2 h⟩
  refine ⟨?_, ?_, rfl⟩
  · rw [← hany]
    simp [moderateContent]
  · rw [← hany]
    simp [moderateContent]

/-! ## Handlers -/

theorem strictEqStr_iff (v : JsVal) (lit : String) :
    strictEqStr v lit = true ↔ v = some (.str lit) := by
  unfold strictEqStr
  split
  · simp
  · rename_i h
    simp only [Bool.false_eq_true, false_iff]
    intro hv
    exact h lit hv

theorem rebuild_log (J : JSONLib) (ws : Nat) (items : List Json) (w : World) :
    items.foldl
        (fun acc item => acc.emit (.upstreamSend ws (J.stringify (itemCreateEvent item)))) w =
      { w with log := w.log ++
          items.map (fun item => Effect.upstreamSend ws (J.stringify (itemCreateEvent item))) } := by
  induction items generalizing w with
  | nil => simp
  | cons x xs ih =>
    rw [List.foldl_cons, ih]
    simp [World.emit]

/-- C3. A remote message that parses to an event of type `response.text.delta` whose
`delta.text` is a string rejected by `moderateContent` makes the upstream message
handler send exactly one cancellation event (`type: "response.cancel"`) to the
upstream socket and exactly one error event (`type: "error"`, `error: (message)`) to
the client, in that order, and nothing else: the received message string is not
forwarded (line 119 is not reached), and no exception escapes. -/
theorem rejected_delta_is_cancelled (J : JSONLib) (ws : Nat) (data : WsData)
    (messageStr : String) (event : Json) (delta : JsVal) (text : String) (w : World)
    (hdata : data = .buffer messageStr ∨ data = .string messageStr)
    (hparse : J.parse messageStr = .ok event)
    (htype : getProp (some event) "type" = .ok (some (.str "response.text.delta")))
    (hdelta : getProp (some event) "delta" = .ok delta)
    (htext : getProp delta "text" = .ok (some (.str text)))
    (hmod : moderateContent (some (.str text)) = .ok false) :
    onUpstreamMessage J ws data w =
      ⟨{ w with log := w.log ++
          [.upstreamSend ws (J.stringify (.obj [("type", .str "response.cancel")])),
           .clientSend (J.stringify (.obj [("type", .str "error"),
              ("error", .obj [("message",
                .str "Response contained inappropriate content and was cancelled.")])]))] },
        none⟩ ∧
    (J.parse (J.stringify (.obj [("type", .str "error"),
          ("error", .obj [("message",
            .str "Response contained inappropriate content and was cancelled.")])])) =
        .ok (.obj [("type", .str "error"),
          ("error", .obj [("message",
            .str "Response contained inappropriate content and was cancelled.")])]) →
      Effect.clientSend messageStr ∉
        [Effect.upstreamSend ws (J.stringify (.obj [("type", .str "response.cancel")])),
         Effect.clientSend (J.stringify (.obj [("type", .str "error"),
            ("error", .obj [("message",
              .str "Response contained inappropriate content and was cancelled.")])]))]) := by
  constructor
  · have hst : strictEqStr (some (.str "response.text.delta")) "response.text.delta" = true := by
      rw [strictEqStr_iff]
    rcases hdata with h | h <;> subst h <;>
      simp [onUpstreamMessage, hparse, htype, hdelta, htext, hmod, hst, World.emit,
        cancelEvent, moderationErrorEvent]
  · intro hrt hmem
    simp only [List.mem_cons, List.mem_singleton, Effect.clientSend.injEq, reduceCtorEq,
      false_or, List.not_mem_nil, or_false] at hmem
    rw [← hmem, hparse] at hrt
    have hev : event = .obj [("type", .str "error"),
        ("error", .obj [("message",
          .str "Response contained inappropriate content and was cancelled.")])] := by
      injection hrt
    rw [hev] at htype
    simp [getProp, List.lookup] at htype

/-- C3, at a concrete message on an open upstream socket. -/
theorem rejected_delta_is_cancelled_witness :
    onUpstreamMessage sampleJSON 0
        (.string "\x7b\"type\":\"response.text.delta\",\"delta\":\x7b\"text\":\"a BadWord2 b\"\x7d\x7d")
        (run sampleJSON [Event.upstreamOpen 0] (onConnection [])).world =
      ⟨{ (run sampleJSON [Event.upstreamOpen 0] (onConnection [])).world with
          log := (run sampleJSON [Event.upstreamOpen 0] (onConnection [])).world.log ++
          [.upstreamSend 0 (sampleJSON.stringify (.obj [("type", .str "response.cancel")])),
           .clientSend (sampleJSON.stringify (.obj [("type", .str "error"),
              ("error", .obj [("message",
                .str "Response contained inappropriate content and was cancelled.")])]))] },
        none⟩ ∧
    (sampleJSON.parse (sampleJSON.stringify (.obj [("type", .str "error"),
          ("error", .obj [("message",
            .str "Response contained inappropriate content and was cancelled.")])])) =
        .ok (.obj [("type", .str "error"),
          ("error", .obj [("message",
            .str "Response contained inappropriate content and was cancelled.")])]) →
      Effect.clientSend
          "\x7b\"type\":\"response.text.delta\",\"delta\":\x7b\"text\":\"a BadWord2 b\"\x7d\x7d" ∉
        [Effect.upstreamSend 0 (sampleJSON.stringify (.obj [("type", .str "response.cancel")])),
         Effect.clientSend (sampleJSON.stringify (.obj [("type", .str "error"),
            ("error", .obj [("message",
              .str "Response contained inappropriate content and was cancelled.")])]))]) :=
  rejected_delta_is_cancelled sampleJSON 0 _ _
    (.obj [("type", .str "response.text.delta"), ("delta", .obj [("text", .str "a BadWord2 b")])])
    (some (.obj [("text", .str "a BadWord2 b")])) "a BadWord2 b"
    (run sampleJSON [Event.upstreamOpen 0] (onConnection [])).world
    (Or.inr rfl) rfl rfl rfl rfl rfl

/-- C4. With `maxReconnectAttempts` = 5, in a new session whose upstream sockets all
close without opening (each close followed by the firing of the timer it started),
the relay starts a 5000 ms timer after each of the first five closes and constructs
exactly five further sockets (1 to 5); on the close of socket 5 it calls
`clientSocket.close()`, starts no timer and constructs no socket. -/
theorem five_reconnects_then_client_closed (J : JSONLib) (history : List Json) :
    run J (closeAndRetry 0 5 ++ [Event.upstreamClose 5]) (onConnection history) =
      ⟨{ conversationHistory := history, reconnectAttempts := 5, openaiWs := 0,
         sockets := 6, timers := 0,
         log := [.wsNew 0,
                 .setTimeout 5000, .wsNew 1,
                 .setTimeout 5000, .wsNew 2,
                 .setTimeout 5000, .wsNew 3,
                 .setTimeout 5000, .wsNew 4,
                 .setTimeout 5000, .wsNew 5,
                 .clientClose],
         connecting := [] }, none⟩ ∧
    (run J (closeAndRetry 0 5) (onConnection history)).world.log =
      [.wsNew 0,
       .setTimeout 5000, .wsNew 1,
       .setTimeout 5000, .wsNew 2,
       .setTimeout 5000, .wsNew 3,
       .setTimeout 5000, .wsNew 4,
       .setTimeout 5000, .wsNew 5] ∧
    maxReconnectAttempts = 5 := by
  refine ⟨?_, ?_, rfl⟩ <;>
    simp [closeAndRetry, run, step, onUpstreamClose, onTimeout, connect, onConnection,
      connectToOpenAI, maxReconnectAttempts, reconnectDelay, World.emit,
      World.leaveConnecting]

/-- C5. A client message that `JSON.parse` rejects makes the client message handler
send exactly one error event (`type: "error"`, `error: (message, details)`) to the
client and do nothing else: nothing is sent upstream, `conversationHistory` is
unchanged and the client connection is not closed. -/
theorem malformed_client_message (J : JSONLib) (message m : String) (w : World)
    (hparse : J.parse message = .error m) :
    onClientMessage J message w =
      { w with log := w.log ++ [.clientSend (J.stringify (invalidJsonErrorEvent m))] } ∧
    invalidJsonErrorEvent m =
      .obj [("type", .str "error"),
        ("error", .obj [("message", .str "Invalid JSON format sent to server."),
          ("details", .str m)])] := by
  refine ⟨?_, rfl⟩
  simp [onClientMessage, clientTry, hparse, World.emit, Exn.message]

/-- C5, at a concrete message. -/
theorem malformed_client_message_witness :
    onClientMessage sampleJSON "\x7boops" (onConnection []) =
      { onConnection [] with log := (onConnection []).log ++
          [.clientSend (sampleJSON.stringify (invalidJsonErrorEvent "Unexpected token"))] } ∧
    invalidJsonErrorEvent "Unexpected token" =
      .obj [("type", .str "error"),
        ("error", .obj [("message", .str "Invalid JSON format sent to server."),
          ("details", .str "Unexpected token")])] :=
  malformed_client_message sampleJSON "\x7boops" "Unexpected token" (onConnection []) rfl

/-- C6 (what the code does). A client message that is valid JSON is not always
forwarded: for a `conversation.item.create` event without `item`, and for the JSON
value `null`, a property read throws inside the `try`, the `catch` answers with the
"Invalid JSON format" error event, and nothing is sent upstream. -/
theorem parsed_client_message_not_forwarded :
    (onClientMessage sampleJSON "\x7b\"type\":\"conversation.item.create\"\x7d"
        (onConnection [])).log =
      [.wsNew 0,
       .clientSend (sampleJSON.stringify (invalidJsonErrorEvent
          "Cannot read properties of undefined (reading role)"))] ∧
    (onClientMessage sampleJSON "null" (onConnection [])).log =
      [.wsNew 0,
       .clientSend (sampleJSON.stringify (invalidJsonErrorEvent
          "Cannot read properties of null (reading type)"))] ∧
    sampleJSON.parse "\x7b\"type\":\"conversation.item.create\"\x7d" =
      .ok (.obj [("type", .str "conversation.item.create")]) ∧
    sampleJSON.parse "null" = .ok .null :=
  ⟨rfl, rfl, rfl, rfl⟩

/-- C7 (what the code does). A remote message that `JSON.parse` rejects sends nothing
and changes nothing, but the `SyntaxError` escapes the upstream message handler,
which has no `try`. -/
theorem malformed_remote_message_throws :
    onUpstreamMessage sampleJSON 0 (.string "not json") (onConnection []) =
      ⟨onConnection [], some (.syntaxError "Unexpected token")⟩ ∧
    (run sampleJSON [Event.upstreamOpen 0, Event.upstreamMessage 0 (.string "not json"),
        Event.clientMessage "null"] (onConnection [])).thrown =
      some (.syntaxError "Unexpected token") :=
  ⟨rfl, rfl⟩

/-- C8 (what the code does). In a new session the client closes and the handler
calls `close()` on upstream socket 0; the close event of socket 0 that follows starts
a 5000 ms reconnect timer, and when the timer fires a new upstream socket (1) is
constructed. -/
theorem client_close_still_reconnects :
    (run sampleJSON [Event.clientClose, Event.upstreamClose 0, Event.timeout]
        (onConnection [])).world.log =
      [.wsNew 0, .upstreamClose 0, .setTimeout 5000, .wsNew 1] ∧
    (run sampleJSON [Event.clientClose, Event.upstreamClose 0]
        (onConnection [])).world.timers = 1 :=
  ⟨rfl, rfl⟩

/-- C9. Whatever the history and the counter, the upstream open handler of socket
`ws` sets `reconnectAttempts` to 0 and sends to `ws` the system prompt followed by one
`conversation.item.create` event per item of `conversationHistory`, in array order
(oldest first), and nothing else. -/
theorem open_sends_prompt_then_history (J : JSONLib) (ws : Nat) (w : World) :
    onUpstreamOpen J ws w =
      { w with
        reconnectAttempts := 0,
        log := w.log ++
          Effect.upstreamSend ws (J.stringify systemPrompt) ::
            w.conversationHistory.map (fun item =>
              Effect.upstreamSend ws
                (J.stringify (.obj [("type", .str "conversation.item.create"), ("item", item)]))) } := by
  unfold onUpstreamOpen rebuildConversation
  rw [rebuild_log]
  simp [World.emit, itemCreateEvent]

/-! ## Capture of user items -/

theorem user_item_message (J : JSONLib) (message : String) (event item : Json) (w : World)
    (hparse : J.parse message = .ok event)
    (htype : getProp (some event) "type" = .ok (some (.str "conversation.item.create")))
    (hitem : getProp (some event) "item" = .ok (some item))
    (hrole : getProp (some item) "role" = .ok (some (.str "user"))) :
    onClientMessage J message w =
      { w with
        conversationHistory := addToConversationHistory item w.conversationHistory,
        log := w.log ++
          [if w.connecting.contains w.openaiWs then
            .clientSend (J.stringify (invalidJsonErrorEvent notOpenMessage))
           else .upstreamSend w.openaiWs (J.stringify event)] } := by
  have h1 : strictEqStr (some (.str "conversation.item.create")) "conversation.item.create"
      = true := by rw [strictEqStr_iff]
  have h2 : strictEqStr (some (.str "user")) "user" = true := by rw [strictEqStr_iff]
  by_cases hc : w.openaiWs ∈ w.connecting
  · simp [onClientMessage, clientTry, sendUpstream, hparse, htype, hitem, hrole, h1, h2,
      World.emit, hc, Exn.message]
  · simp [onClientMessage, clientTry, sendUpstream, hparse, htype, hitem, hrole, h1, h2,
      World.emit, hc]

theorem sendUpstream_history (payload : String) (w : World) :
    (sendUpstream payload w).world.conversationHistory = w.conversationHistory := by
  unfold sendUpstream
  split <;> rfl

theorem other_message_keeps_history (J : JSONLib) (message : String) (event : Json)
    (w : World) (hparse : J.parse message = .ok event)
    (hno : ¬ ∃ item : Json,
        getProp (some event) "type" = .ok (some (.str "conversation.item.create")) ∧
        getProp (some event) "item" = .ok (some item) ∧
        getProp (some item) "role" = .ok (some (.str "user"))) :
    (onClientMessage J message w).conversationHistory = w.conversationHistory := by
  have key : (clientTry J message w).world.conversationHistory = w.conversationHistory := by
    unfold clientTry
    simp only [hparse]
    cases htype : getProp (some event) "type" with
    | error e => rfl
    | ok ty =>
      simp only
      by_cases hty : strictEqStr ty "conversation.item.create" = true
      · simp only [hty, if_true]
        cases hitem : getProp (some event) "item" with
        | error e => rfl
        | ok item =>
          simp only
          cases hrole : getProp item "role" with
          | error e => rfl
          | ok role =>
            simp only
            by_cases hr : strictEqStr role "user" = true
            · exfalso
              rw [strictEqStr_iff] at hty hr
              cases item with
              | none => simp [getProp] at hrole
              | some i =>
                apply hno
                exact ⟨i, by rw [htype, hty], hitem, by rw [hrole, hr]⟩
            · simp only [hr]
              exact sendUpstream_history _ _
      · simp only [hty]
        exact sendUpstream_history _ _
  unfold onClientMessage
  generalize clientTry J message w = o at key
  obtain ⟨w1, t⟩ := o
  cases t with
  | none => exact key
  | some e => exact key

/-- C10 (what the code does). A user item event that arrives while the upstream
socket is still `CONNECTING` (a new session, before the open event): the item is
appended to `conversationHistory`, then `openaiWs.send` throws inside the `try`; the
`catch` answers with the "Invalid JSON format" error event and the event is not
forwarded. -/
theorem user_item_captured_not_forwarded :
    onClientMessage sampleJSON
        "\x7b\"type\":\"conversation.item.create\",\"item\":\x7b\"role\":\"user\",\"content\":\"hi\"\x7d\x7d"
        (onConnection []) =
      { conversationHistory := [.obj [("role", .str "user"), ("content", .str "hi")]],
        reconnectAttempts := 0, openaiWs := 0, sockets := 1, timers := 0,
        log := [.wsNew 0,
                .clientSend (sampleJSON.stringify (invalidJsonErrorEvent
                  "WebSocket is not open: readyState 0 (CONNECTING)"))],
        connecting := [0] } ∧
    sampleJSON.parse
        "\x7b\"type\":\"conversation.item.create\",\"item\":\x7b\"role\":\"user\",\"content\":\"hi\"\x7d\x7d" =
      .ok (.obj [("type", .str "conversation.item.create"),
        ("item", .obj [("role", .str "user"), ("content", .str "hi")])]) ∧
    (run sampleJSON
        [Event.upstreamOpen 0,
         Event.clientMessage
          "\x7b\"type\":\"conversation.item.create\",\"item\":\x7b\"role\":\"user\",\"content\":\"hi\"\x7d\x7d"]
        (onConnection [])).world.log =
      [.wsNew 0, .upstreamSend 0 (sampleJSON.stringify systemPrompt),
       .upstreamSend 0
        "\x7b\"type\":\"conversation.item.create\",\"item\":\x7b\"role\":\"user\",\"content\":\"hi\"\x7d\x7d"] :=
  ⟨rfl, rfl, rfl⟩

/-! ## Forwarding of remote messages -/

/-- Forwarding when the `type` can be read: a remote message that parses to a value
other than `null` whose `type` is not `response.text.delta`, or is
`response.text.delta` with a `delta.text` string that `moderateContent` accepts, makes
the upstream message handler send exactly one message to the client, the received
string itself, and nothing upstream; no exception escapes. -/
theorem accepted_message_is_forwarded (J : JSONLib) (ws : Nat) (data : WsData)
    (messageStr : String) (event : Json) (ty : JsVal) (w : World)
    (hdata : data = .buffer messageStr ∨ data = .string messageStr)
    (hparse : J.parse messageStr = .ok event)
    (htype : getProp (some event) "type" = .ok ty)
    (hok : ty ≠ some (.str "response.text.delta") ∨
      ∃ (delta : JsVal) (text : String),
        getProp (some event) "delta" = .ok delta ∧
        getProp delta "text" = .ok (some (.str text)) ∧
        moderateContent (some (.str text)) = .ok true) :
    onUpstreamMessage J ws data w =
      ⟨{ w with log := w.log ++ [.clientSend messageStr] }, none⟩ := by
  by_cases hty : strictEqStr ty "response.text.delta" = true
  · rcases hok with hne | ⟨delta, text, hdelta, htext, hmod⟩
    · exact absurd ((strictEqStr_iff _ _).1 hty) hne
    · rcases hdata with h | h <;> subst h <;>
        simp [onUpstreamMessage, hparse, htype, hty, hdelta, htext, hmod, World.emit]
  · rcases hdata with h | h <;> subst h <;>
      simp [onUpstreamMessage, hparse, htype, hty, World.emit]

/-- Forwarding of an accepted text delta, at a concrete message. -/
theorem accepted_message_is_forwarded_witness :
    onUpstreamMessage remoteJSON 0
        (.string "\x7b\"type\":\"response.text.delta\",\"delta\":\x7b\"text\":\"hello\"\x7d\x7d")
        (onConnection []) =
      ⟨{ onConnection [] with log := (onConnection []).log ++
          [.clientSend
            "\x7b\"type\":\"response.text.delta\",\"delta\":\x7b\"text\":\"hello\"\x7d\x7d"] },
        none⟩ :=
  accepted_message_is_forwarded remoteJSON 0 _ _
    (.obj [("type", .str "response.text.delta"), ("delta", .obj [("text", .str "hello")])])
    (some (.str "response.text.delta")) (onConnection [])
    (Or.inr rfl) rfl rfl
    (Or.inr ⟨some (.obj [("text", .str "hello")]), "hello", rfl, rfl, rfl⟩)

/-- C11 (what the code does). The remote message `null` parses to a value that is
not of type `response.text.delta`, yet it is not forwarded: reading `event.type`
throws a `TypeError` out of the handler and nothing is sent to the client. The
message without a `type` next to it is forwarded as received. -/
theorem parsed_null_is_not_forwarded :
    run remoteJSON [Event.upstreamOpen 0, Event.upstreamMessage 0 (.string "null")]
        (onConnection []) =
      ⟨{ conversationHistory := [], reconnectAttempts := 0, openaiWs := 0, sockets := 1,
         timers := 0,
         log := [.wsNew 0, .upstreamSend 0 (remoteJSON.stringify systemPrompt)],
         connecting := [] },
       some (.typeError "Cannot read properties of null (reading type)")⟩ ∧
    remoteJSON.parse "null" = .ok .null ∧
    getProp (some .null) "type" ≠ .ok (some (.str "response.text.delta")) ∧
    (run remoteJSON [Event.upstreamOpen 0, Event.upstreamMessage 0 (.string "\x7b\x7d")]
        (onConnection [])).world.log =
      [.wsNew 0, .upstreamSend 0 (remoteJSON.stringify systemPrompt),
       .clientSend "\x7b\x7d"] := by
  refine ⟨rfl, rfl, ?_, rfl⟩
  simp [getProp]

/-- C12 (what the code does). Remote messages that are valid JSON make the upstream
message handler throw: the value `null` (reading `event.type`), a
`response.text.delta` event without `delta` (reading `event.delta.text`), and one
whose `delta` is a plain string (calling `toLowerCase` on `undefined`). An event
with no `type` is forwarded without an exception. -/
theorem parsed_remote_message_throws :
    onUpstreamMessage remoteJSON 0 (.string "null") (onConnection []) =
      ⟨onConnection [], some (.typeError "Cannot read properties of null (reading type)")⟩ ∧
    onUpstreamMessage remoteJSON 0 (.string "\x7b\"type\":\"response.text.delta\"\x7d")
        (onConnection []) =
      ⟨onConnection [],
        some (.typeError "Cannot read properties of undefined (reading text)")⟩ ∧
    onUpstreamMessage remoteJSON 0
        (.string "\x7b\"type\":\"response.text.delta\",\"delta\":\"abc\"\x7d")
        (onConnection []) =
      ⟨onConnection [],
        some (.typeError "Cannot read properties of undefined (reading toLowerCase)")⟩ ∧
    (onUpstreamMessage remoteJSON 0 (.string "\x7b\x7d") (onConnection [])).thrown = none ∧
    remoteJSON.parse "null" = .ok .null ∧
    remoteJSON.parse "\x7b\"type\":\"response.text.delta\"\x7d" =
      .ok (.obj [("type", .str "response.text.delta")]) ∧
    remoteJSON.parse "\x7b\"type\":\"response.text.delta\",\"delta\":\"abc\"\x7d" =
      .ok (.obj [("type", .str "response.text.delta"), ("delta", .str "abc")]) :=
  ⟨rfl, rfl, rfl, rfl, rfl, rfl, rfl⟩

/-! ## The upstream socket after a reconnect -/

/-- C13 (what the code does). After a reconnect has replaced upstream socket 0 by
socket 1 (which has opened and received the system prompt), a parsed client event
is sent to socket 0, and a client close calls `close()` on socket 0: `openaiWs` in
the connection callback is the socket the first `connect()` returned. -/
theorem client_keeps_first_socket :
    (run sampleJSON
        [Event.upstreamClose 0, Event.timeout, Event.upstreamOpen 1,
         Event.clientMessage
          "\x7b\"type\":\"conversation.item.create\",\"item\":\x7b\"role\":\"user\",\"content\":\"hi\"\x7d\x7d",
         Event.clientClose]
        (onConnection [])).world.log =
      [.wsNew 0, .setTimeout 5000, .wsNew 1,
       .upstreamSend 1 (sampleJSON.stringify systemPrompt),
       .upstreamSend 0
        "\x7b\"type\":\"conversation.item.create\",\"item\":\x7b\"role\":\"user\",\"content\":\"hi\"\x7d\x7d",
       .upstreamClose 0] := by
  rfl

/-! ## The reconnect counter and the pending timer -/

theorem onUpstreamOpen_frame (J : JSONLib) (ws : Nat) (w : World) :
    (onUpstreamOpen J ws w).reconnectAttempts = 0 ∧
    (onUpstreamOpen J ws w).sockets = w.sockets ∧
    (onUpstreamOpen J ws w).timers = w.timers := by
  unfold onUpstreamOpen rebuildConversation
  rw [rebuild_log]
  simp [World.emit]

theorem onUpstreamMessage_frame (J : JSONLib) (ws : Nat) (data : WsData) (w : World) :
    (onUpstreamMessage J ws data w).world.reconnectAttempts = w.reconnectAttempts ∧
    (onUpstreamMessage J ws data w).world.sockets = w.sockets ∧
    (onUpstreamMessage J ws data w).world.timers = w.timers := by
  unfold onUpstreamMessage
  cases data <;> simp only [] <;> (repeat' split) <;> simp [World.emit]

theorem sendUpstream_frame (payload : String) (w : World) :
    (sendUpstream payload w).world.reconnectAttempts = w.reconnectAttempts ∧
    (sendUpstream payload w).world.sockets = w.sockets ∧
    (sendUpstream payload w).world.timers = w.timers := by
  unfold sendUpstream
  split <;> simp [World.emit]

theorem clientTry_frame (J : JSONLib) (message : String) (w : World) :
    (clientTry J message w).world.reconnectAttempts = w.reconnectAttempts ∧
    (clientTry J message w).world.sockets = w.sockets ∧
    (clientTry J message w).world.timers = w.timers := by
  unfold clientTry
  repeat' split
  all_goals first
    | exact ⟨rfl, rfl, rfl⟩
    | exact sendUpstream_frame _ _

theorem onClientMessage_frame (J : JSONLib) (message : String) (w : World) :
    (onClientMessage J message w).reconnectAttempts = w.reconnectAttempts ∧
    (onClientMessage J message w).sockets = w.sockets ∧
    (onClientMessage J message w).timers = w.timers := by
  have key := clientTry_frame J message w
  unfold onClientMessage
  generalize clientTry J message w = o at key
  obtain ⟨w1, t⟩ := o
  cases t with
  | none => exact key
  | some e => exact key

theorem closed_length_le (closed : List Nat) (n : Nat) (hnd : closed.Nodup)
    (hlt : ∀ c ∈ closed, c < n) : closed.length ≤ n := by
  have hsub : closed ⊆ List.range n := fun c hc => List.mem_range.2 (hlt c hc)
  have := (List.subperm_of_subset hnd hsub).length_le
  simpa using this

theorem sessionInv_new (history : List Json) : SessionInv (newSession history) := by
  simp [SessionInv, newSession, onConnection, connectToOpenAI, connect, maxReconnectAttempts]

theorem sessionInv_deliver (J : JSONLib) (e : Event) (s : Session)
    (hinv : SessionInv s) (hadm : admissible s e = true) : SessionInv (deliver J e s) := by
  obtain ⟨hnd, hlt, hcount, hle, hpend⟩ := hinv
  cases e with
  | upstreamOpen c =>
    obtain ⟨h1, h2, h3⟩ := onUpstreamOpen_frame J c (s.world.leaveConnecting c)
    have h2 : (onUpstreamOpen J c (s.world.leaveConnecting c)).sockets = s.world.sockets := h2
    have h3 : (onUpstreamOpen J c (s.world.leaveConnecting c)).timers = s.world.timers := h3
    simp only [SessionInv, deliver, step, h1, h2, h3]
    exact ⟨hnd, hlt, hcount, Nat.zero_le _, fun _ => by simp [maxReconnectAttempts]⟩
  | upstreamMessage c data =>
    obtain ⟨h1, h2, h3⟩ := onUpstreamMessage_frame J c data s.world
    simp only [SessionInv, deliver, step, h1, h2, h3]
    exact ⟨hnd, hlt, hcount, hle, hpend⟩
  | upstreamError c message =>
    simp only [SessionInv, deliver, step, onUpstreamError, World.emit, World.leaveConnecting]
    exact ⟨hnd, hlt, hcount, hle, hpend⟩
  | upstreamClose c =>
    simp only [admissible, Bool.and_eq_true, decide_eq_true_eq, Bool.not_eq_true',
      List.contains_eq_any_beq, List.any_eq_false, beq_iff_eq] at hadm
    obtain ⟨hc, hnot⟩ := hadm
    have hnotin : c ∉ s.closed := fun hmem => hnot c hmem rfl
    have hnd2 : (c :: s.closed).Nodup := List.nodup_cons.2 ⟨hnotin, hnd⟩
    have hlt2 : ∀ d ∈ c :: s.closed, d < s.world.sockets := by
      intro d hd
      rcases List.mem_cons.1 hd with h | h
      · rw [h]; exact hc
      · exact hlt d h
    have hlen := closed_length_le (c :: s.closed) s.world.sockets hnd2 hlt2
    simp only [List.length_cons] at hlen
    have ht0 : s.world.timers = 0 := by omega
    by_cases ha : s.world.reconnectAttempts < maxReconnectAttempts
    · simp only [SessionInv, deliver, step, onUpstreamClose, World.leaveConnecting, ha, if_true,
        List.length_cons]
      exact ⟨hnd2, hlt2, by omega, hle, fun _ => trivial⟩
    · simp only [SessionInv, deliver, step, onUpstreamClose, World.leaveConnecting, ha,
        if_false, World.emit, List.length_cons]
      refine ⟨hnd2, hlt2, by omega, hle, fun h => by omega⟩
  | timeout =>
    simp only [admissible, decide_eq_true_eq] at hadm
    have hne : ¬ s.world.timers = 0 := by omega
    have ha := hpend hadm
    have hlen := closed_length_le s.closed s.world.sockets hnd hlt
    simp only [SessionInv, deliver, step, onTimeout, hne, if_false, connect]
    refine ⟨hnd, fun c hc => Nat.lt_succ_of_lt (hlt c hc), by omega, by omega, fun h => by omega⟩
  | clientMessage message =>
    obtain ⟨h1, h2, h3⟩ := onClientMessage_frame J message s.world
    simp only [SessionInv, deliver, step, h1, h2, h3]
    exact ⟨hnd, hlt, hcount, hle, hpend⟩
  | clientClose =>
    simp only [SessionInv, deliver, step, onClientClose, World.emit, World.leaveConnecting]
    exact ⟨hnd, hlt, hcount, hle, hpend⟩
  | clientError =>
    simp only [SessionInv, deliver, step, onClientError, World.emit, World.leaveConnecting]
    exact ⟨hnd, hlt, hcount, hle, hpend⟩

theorem sessionInv_runSession (J : JSONLib) (events : List Event) (s s1 : Session)
    (hinv : SessionInv s) (hrun : runSession J events s = some s1) : SessionInv s1 := by
  induction events generalizing s with
  | nil =>
    simp only [runSession, Option.some.injEq] at hrun
    rw [← hrun]; exact hinv
  | cons e es ih =>
    simp only [runSession] at hrun
    by_cases hadm : admissible s e = true
    · simp only [hadm, if_true] at hrun
      exact ih (deliver J e s) (sessionInv_deliver J e s hinv hadm) hrun
    · simp [hadm] at hrun

/-- C14. In every state a new session reaches by any sequence of events the runtime
can deliver (upstream open, message, error and close, timer firing, client message,
close and error; each socket closing at most once, a timer firing only while
pending), `reconnectAttempts` lies between 0 and `maxReconnectAttempts` = 5 and at
most one reconnect timer is pending. -/
theorem counter_and_timer_bounded (J : JSONLib) (history : List Json) (events : List Event)
    (s : Session) (hrun : runSession J events (newSession history) = some s) :
    0 ≤ s.world.reconnectAttempts ∧ s.world.reconnectAttempts ≤ 5 ∧ s.world.timers ≤ 1 := by
  obtain ⟨hnd, hlt, hcount, hle, _⟩ :=
    sessionInv_runSession J events (newSession history) s (sessionInv_new history) hrun
  have hlen := closed_length_le s.closed s.world.sockets hnd hlt
  refine ⟨Nat.zero_le _, hle, by omega⟩

/-- C14, at a session in which the client closes and the upstream then reconnects. -/
theorem counter_and_timer_bounded_witness :
    runSession sampleJSON [Event.clientClose, Event.upstreamClose 0, Event.timeout]
        (newSession []) =
      some ⟨{ conversationHistory := [], reconnectAttempts := 1, openaiWs := 0, sockets := 2,
              timers := 0,
              log := [.wsNew 0, .upstreamClose 0, .setTimeout 5000, .wsNew 1],
              connecting := [1] }, [0]⟩ ∧
    (0 ≤ 1 ∧ 1 ≤ 5 ∧ 0 ≤ 1) :=
  ⟨rfl, counter_and_timer_bounded sampleJSON []
    [Event.clientClose, Event.upstreamClose 0, Event.timeout] _ rfl⟩

/-! ## Capture and replay -/

theorem addToConversationHistory_getLast (i : Json) (h : List Json) :
    (addToConversationHistory i h).getLast? = some i := by
  unfold addToConversationHistory
  simp only []
  split
  · rename_i hlen
    cases h with
    | nil => simp [maxHistoryLength] at hlen
    | cons x xs => simp
  · simp

/-- C15 (as stated, refuted). A user item event that lists `item` before `type` and
has no other field is forwarded as received, with `item` first, and is replayed at
the next open with `type` first: the two texts differ. -/
theorem item_first_event_replayed_type_first :
    (run clientJSON
        [Event.upstreamOpen 0,
         Event.clientMessage
          "\x7b\"item\":\x7b\"role\":\"user\",\"content\":\"hi\"\x7d,\"type\":\"conversation.item.create\"\x7d",
         Event.upstreamClose 0, Event.timeout, Event.upstreamOpen 1]
        (onConnection [])).world.log =
      [.wsNew 0,
       .upstreamSend 0 (clientJSON.stringify systemPrompt),
       .upstreamSend 0
        "\x7b\"item\":\x7b\"role\":\"user\",\"content\":\"hi\"\x7d,\"type\":\"conversation.item.create\"\x7d",
       .setTimeout 5000,
       .wsNew 1,
       .upstreamSend 1 (clientJSON.stringify systemPrompt),
       .upstreamSend 1
        "\x7b\"type\":\"conversation.item.create\",\"item\":\x7b\"role\":\"user\",\"content\":\"hi\"\x7d\x7d"] ∧
    clientJSON.parse
        "\x7b\"item\":\x7b\"role\":\"user\",\"content\":\"hi\"\x7d,\"type\":\"conversation.item.create\"\x7d" =
      .ok (.obj [("item", .obj [("role", .str "user"), ("content", .str "hi")]),
        ("type", .str "conversation.item.create")]) ∧
    "\x7b\"item\":\x7b\"role\":\"user\",\"content\":\"hi\"\x7d,\"type\":\"conversation.item.create\"\x7d" ≠
      "\x7b\"type\":\"conversation.item.create\",\"item\":\x7b\"role\":\"user\",\"content\":\"hi\"\x7d\x7d" := by
  refine ⟨rfl, rfl, ?_⟩
  decide

/-- C15 (amended). For a parsed client event of type `conversation.item.create` whose
`item` is `i` with `i.role` = `"user"`: the handler captures `i` (one
`addToConversationHistory`) and passes `JSON.stringify(event)` to `openaiWs.send`
(which forwards it unless the socket is still `CONNECTING`); at a later open, with
the history as the handler left it, the last message replayed is `JSON.stringify` of
the object with `type` first and `item: i` second. That object has the event's
`type` and `item` and no other property. So the replayed text is the forwarded text
when the event is that object with `type` listed first; an event that lists `item`
first or has further fields is replayed with the same `type` and `item` only. -/
theorem capture_then_replay (J : JSONLib) (message : String) (event i : Json)
    (w later : World) (ws : Nat)
    (hparse : J.parse message = .ok event)
    (htype : getProp (some event) "type" = .ok (some (.str "conversation.item.create")))
    (hitem : getProp (some event) "item" = .ok (some i))
    (hrole : getProp (some i) "role" = .ok (some (.str "user")))
    (hlater : later.conversationHistory = (onClientMessage J message w).conversationHistory) :
    (onClientMessage J message w).conversationHistory =
      addToConversationHistory i w.conversationHistory ∧
    (onClientMessage J message w).log =
      w.log ++
        [if w.connecting.contains w.openaiWs then
          .clientSend (J.stringify (invalidJsonErrorEvent notOpenMessage))
         else .upstreamSend w.openaiWs (J.stringify event)] ∧
    (onUpstreamOpen J ws later).log.getLast? =
      some (.upstreamSend ws
        (J.stringify (.obj [("type", .str "conversation.item.create"), ("item", i)]))) ∧
    (∀ k : String,
      getProp (some (.obj [("type", .str "conversation.item.create"), ("item", i)])) k =
        if k = "type" then getProp (some event) "type"
        else if k = "item" then getProp (some event) "item"
        else .ok none) := by
  have hw := user_item_message J message event i w hparse htype hitem hrole
  have hhist : (onClientMessage J message w).conversationHistory =
      addToConversationHistory i w.conversationHistory := by rw [hw]
  refine ⟨hhist, by rw [hw], ?_, ?_⟩
  · have hlast := addToConversationHistory_getLast i w.conversationHistory
    obtain ⟨init, hinit⟩ : ∃ init, later.conversationHistory = init ++ [i] := by
      rw [hlater, hhist]
      rcases List.eq_nil_or_concat (addToConversationHistory i w.conversationHistory)
        with hnil | ⟨init, x, hx⟩
      · rw [hnil] at hlast; simp at hlast
      · rw [hx] at hlast
        simp at hlast
        exact ⟨init, by rw [hx, hlast]; simp⟩
    unfold onUpstreamOpen rebuildConversation
    rw [rebuild_log]
    simp only [World.emit, hinit, List.map_append, List.map_cons, List.map_nil]
    rw [← List.append_assoc, List.getLast?_append]
    rfl
  · intro k
    by_cases hk1 : k = "type"
    · subst hk1
      rw [if_pos rfl, htype]
      rfl
    · by_cases hk2 : k = "item"
      · subst hk2
        rw [if_neg hk1, if_pos rfl, hitem]
        rfl
      · rw [if_neg hk1, if_neg hk2]
        have e1 : (k == "type") = false := by simpa using hk1
        have e2 : (k == "item") = false := by simpa using hk2
        simp [getProp, List.lookup, e1, e2]

/-- C15 (amended), at the scenario message of the specification: sent on the open
socket 0, replayed when socket 1 opens after a reconnect. -/
theorem capture_then_replay_witness :
    (onClientMessage sampleJSON
        "\x7b\"type\":\"conversation.item.create\",\"item\":\x7b\"role\":\"user\",\"content\":\"hi\"\x7d\x7d"
        (run sampleJSON [Event.upstreamOpen 0] (onConnection [])).world).conversationHistory =
      addToConversationHistory sampleUserItem
        (run sampleJSON [Event.upstreamOpen 0] (onConnection [])).world.conversationHistory ∧
    (onClientMessage sampleJSON
        "\x7b\"type\":\"conversation.item.create\",\"item\":\x7b\"role\":\"user\",\"content\":\"hi\"\x7d\x7d"
        (run sampleJSON [Event.upstreamOpen 0] (onConnection [])).world).log =
      (run sampleJSON [Event.upstreamOpen 0] (onConnection [])).world.log ++
        [if (run sampleJSON [Event.upstreamOpen 0] (onConnection [])).world.connecting.contains
              (run sampleJSON [Event.upstreamOpen 0] (onConnection [])).world.openaiWs then
          .clientSend (sampleJSON.stringify (invalidJsonErrorEvent notOpenMessage))
         else .upstreamSend (run sampleJSON [Event.upstreamOpen 0] (onConnection [])).world.openaiWs
          (sampleJSON.stringify (itemCreateEvent sampleUserItem))] ∧
    (onUpstreamOpen sampleJSON 1
        (run sampleJSON
          [Event.upstreamOpen 0,
           Event.clientMessage
            "\x7b\"type\":\"conversation.item.create\",\"item\":\x7b\"role\":\"user\",\"content\":\"hi\"\x7d\x7d",
           Event.upstreamClose 0, Event.timeout]
          (onConnection [])).world).log.getLast? =
      some (.upstreamSend 1
        (sampleJSON.stringify
          (.obj [("type", .str "conversation.item.create"), ("item", sampleUserItem)]))) ∧
    (∀ k : String,
      getProp (some (.obj [("type", .str "conversation.item.create"),
          ("item", sampleUserItem)])) k =
        if k = "type" then getProp (some (itemCreateEvent sampleUserItem)) "type"
        else if k = "item" then getProp (some (itemCreateEvent sampleUserItem)) "item"
        else .ok none) :=
  capture_then_replay sampleJSON _ (itemCreateEvent sampleUserItem) sampleUserItem
    (run sampleJSON [Event.upstreamOpen 0] (onConnection [])).world
    (run sampleJSON
      [Event.upstreamOpen 0,
       Event.clientMessage
        "\x7b\"type\":\"conversation.item.create\",\"item\":\x7b\"role\":\"user\",\"content\":\"hi\"\x7d\x7d",
       Event.upstreamClose 0, Event.timeout]
      (onConnection [])).world
    1 rfl rfl rfl rfl rfl

/-- The run of the scenario message: forwarded on the open socket 0 and, after a
reconnect, replayed on socket 1 with the same text. -/
theorem scenario_event_replay :
    (run sampleJSON
        [Event.upstreamOpen 0,
         Event.clientMessage
          "\x7b\"type\":\"conversation.item.create\",\"item\":\x7b\"role\":\"user\",\"content\":\"hi\"\x7d\x7d",
         Event.upstreamClose 0, Event.timeout, Event.upstreamOpen 1]
        (onConnection [])).world.log =
      [.wsNew 0,
       .upstreamSend 0 (sampleJSON.stringify systemPrompt),
       .upstreamSend 0
        "\x7b\"type\":\"conversation.item.create\",\"item\":\x7b\"role\":\"user\",\"content\":\"hi\"\x7d\x7d",
       .setTimeout 5000,
       .wsNew 1,
       .upstreamSend 1 (sampleJSON.stringify systemPrompt),
       .upstreamSend 1
        "\x7b\"type\":\"conversation.item.create\",\"item\":\x7b\"role\":\"user\",\"content\":\"hi\"\x7d\x7d"] := by
  rfl

/-- An event with a further top-level field (`event_id`) is forwarded with it and
replayed without it: the two texts differ, `type` and `item` agree. -/
theorem tagged_event_replay :
    (run clientJSON
        [Event.upstreamOpen 0,
         Event.clientMessage
          "\x7b\"type\":\"conversation.item.create\",\"item\":\x7b\"role\":\"user\",\"content\":\"hi\"\x7d,\"event_id\":\"e1\"\x7d",
         Event.upstreamClose 0, Event.timeout, Event.upstreamOpen 1]
        (onConnection [])).world.log =
      [.wsNew 0,
       .upstreamSend 0 (clientJSON.stringify systemPrompt),
       .upstreamSend 0
        "\x7b\"type\":\"conversation.item.create\",\"item\":\x7b\"role\":\"user\",\"content\":\"hi\"\x7d,\"event_id\":\"e1\"\x7d",
       .setTimeout 5000,
       .wsNew 1,
       .upstreamSend 1 (clientJSON.stringify systemPrompt),
       .upstreamSend 1
        "\x7b\"type\":\"conversation.item.create\",\"item\":\x7b\"role\":\"user\",\"content\":\"hi\"\x7d\x7d"] := by
  rfl

end Praxis
